import Mathlib

/-!
Verification development for the rootstock-attest CLI.

The file shallowly embeds the decision logic of the repository:
the logger's sensitive-data redaction (`src/utils/logger.ts`),
the indexer query builder (`src/core/query.ts`), the schema codec's
type inference (`src/commands/query.ts`, `BlockchainAdapter.inferType`)
and the attestation verification pipeline
(`src/commands/verify.ts`, `verifyAttestation`).
External network calls are modelled by an environment record holding the
outcome of each call; JavaScript regular-expression replacement is modelled
by an explicit leftmost, greedy, backtracking matcher.
-/

namespace RootstockAttest

/-! ## Character and list primitives shared by the embeddings -/

/-- Decides whether `pat` is a prefix of `l` (case-sensitive). -/
def beginsWith : List Char → List Char → Bool
  | [], _ => true
  | _ :: _, [] => false
  | p :: ps, c :: cs => p == c && beginsWith ps cs

/-- Decides whether `pat` occurs as a contiguous sublist of `l`. -/
def containsSeq (pat : List Char) : List Char → Bool
  | [] => beginsWith pat []
  | c :: rest => beginsWith pat (c :: rest) || containsSeq pat rest

/-- Hex digit as used by the character class `[a-fA-F0-9]`. -/
def isHexDigit (c : Char) : Bool :=
  decide ('0' ≤ c ∧ c ≤ '9') || decide ('a' ≤ c ∧ c ≤ 'f') ||
    decide ('A' ≤ c ∧ c ≤ 'F')

/-- Case-insensitive literal match: consumes `pat` from the front of `l`
(comparing lowercased characters, as the JavaScript `i` flag does) and
returns the remaining suffix. -/
def matchLitCI (pat : List Char) (l : List Char) : Option (List Char) :=
  match pat, l with
  | [], rest => some rest
  | _ :: _, [] => none
  | p :: ps, c :: cs =>
    if p.toLower == c.toLower then matchLitCI ps cs else none

/-- Case-sensitive literal match consuming `pat` from the front of `l`. -/
def matchLitCS (pat : List Char) (l : List Char) : Option (List Char) :=
  match pat, l with
  | [], rest => some rest
  | _ :: _, [] => none
  | p :: ps, c :: cs => if p == c then matchLitCS ps cs else none

/-- Greedy `.*` of a JavaScript regex: consume any run of characters other
than line terminators, longest first, then hand the suffix to the
continuation `k`; on failure backtrack one character at a time. -/
def dotStarGreedy (k : List Char → Option (List Char)) :
    List Char → Option (List Char)
  | [] => k []
  | c :: rest =>
    if c = '\n' ∨ c = '\r' then k (c :: rest)
    else
      match dotStarGreedy k rest with
      | some r => some r
      | none => k (c :: rest)

/-- Consume exactly `n` hex digits (`[a-fA-F0-9]{n}`). -/
def takeHexExactly : Nat → List Char → Option (List Char)
  | 0, l => some l
  | _ + 1, [] => none
  | n + 1, c :: rest =>
    if isHexDigit c then takeHexExactly n rest else none

/-- Global regex replacement in the JavaScript style: scan left to right,
try the matcher at every position, replace each leftmost match (the matcher
returns the suffix after the match) and continue after it.  The matcher is
given the whole suffix; `repl` receives the matched characters.  The
recursion is structural on a fuel argument bounded by the input length,
which suffices because every step consumes at least one character (the
matchers below never produce a longer remainder, and the guard that would
abort on one is never taken). -/
def replaceScanFuel (tryM : List Char → Option (List Char))
    (repl : List Char → List Char) : Nat → List Char → List Char
  | _, [] => []
  | 0, l => l
  | fuel + 1, c :: rest =>
    match tryM (c :: rest) with
    | some remaining =>
      if remaining.length ≤ rest.length then
        repl ((c :: rest).take ((c :: rest).length - remaining.length)) ++
          replaceScanFuel tryM repl fuel remaining
      else c :: rest
    | none => c :: replaceScanFuel tryM repl fuel rest

/-- One whole-string replacement pass, fuelled by the string length. -/
def replaceScan (tryM : List Char → Option (List Char))
    (repl : List Char → List Char) (l : List Char) : List Char :=
  replaceScanFuel tryM repl l.length l

/-- Matcher built from a literal head followed by a continuation; every
pattern of the logger starts with a literal word, which the identity lemmas
below exploit. -/
def headThen (pre : List Char → Option (List Char))
    (k : List Char → Option (List Char)) (l : List Char) :
    Option (List Char) :=
  (pre l).bind k

/-- Decides whether the literal head matcher `pre` succeeds at some
position of `l`. -/
def occursIn (pre : List Char → Option (List Char)) : List Char → Bool
  | [] => (pre []).isSome
  | c :: rest => (pre (c :: rest)).isSome || occursIn pre rest

/-! ## Logger redaction (`Logger.redactSensitive`, src/utils/logger.ts) -/

/-- Character class `[a-z\s]` under the `i` flag: an ASCII letter of either
case or an ASCII whitespace character. -/
def isMnemonicChar (c : Char) : Bool :=
  decide ('a' ≤ c.toLower ∧ c.toLower ≤ 'z') ||
    (c == ' ' || c == '\t' || c == '\n' || c == '\r' ||
      c == '\x0b' || c == '\x0c')

/-- Consume the maximal run of `[a-z\s]` characters, returning its length
and the remaining suffix. -/
def takeMnemonicRun : List Char → Nat × List Char
  | [] => (0, [])
  | c :: rest =>
    if isMnemonicChar c then
      let p := takeMnemonicRun rest
      (p.1 + 1, p.2)
    else (0, c :: rest)

/-- Tail of the mnemonic pattern: `[a-z\s]{20,}` in final position, hence
a maximal run of at least 20 class characters. -/
def mnemonicTail (l : List Char) : Option (List Char) :=
  let p := takeMnemonicRun l
  if 20 ≤ p.1 then some p.2 else none

/-- Matcher for `/private.*key.*[a-fA-F0-9]{64}/gi` at the head of the
suffix. -/
def privateKeyMatch : List Char → Option (List Char) :=
  headThen (matchLitCI "private".data)
    (dotStarGreedy fun l =>
      (matchLitCI "key".data l).bind (dotStarGreedy (takeHexExactly 64)))

/-- Matcher for `/mnemonic.*[a-z\s]{20,}/gi` at the head of the suffix. -/
def mnemonicMatch : List Char → Option (List Char) :=
  headThen (matchLitCI "mnemonic".data) (dotStarGreedy mnemonicTail)

/-- Matcher for `/0x[a-fA-F0-9]{40}/g` at the head of the suffix. -/
def addressMatch : List Char → Option (List Char) :=
  headThen (matchLitCS "0x".data) (takeHexExactly 40)

/-- Replacement callback of the address rule: the matched address is kept
when its lowercasing contains "contract" or "address" (which a hex string
never does, mirroring the source's dead guard), otherwise it is shortened
to its first 6 and last 4 characters around an ellipsis. -/
def addressRepl (matched : List Char) : List Char :=
  let lower := matched.map Char.toLower
  if containsSeq "contract".data lower || containsSeq "address".data lower
  then matched
  else matched.take 6 ++ "...".data ++ matched.drop (matched.length - 4)

/-- Embedding of `Logger.redactSensitive`: the three global replacements
applied in source order. -/
def redactSensitive (message : String) : String :=
  let l1 := replaceScan privateKeyMatch (fun _ => "PRIVATE_KEY_REDACTED".data)
    message.data
  let l2 := replaceScan mnemonicMatch (fun _ => "MNEMONIC_REDACTED".data) l1
  let l3 := replaceScan addressMatch addressRepl l2
  String.mk l3

/-! ## Indexer query builder (`QueryService`, src/core/query.ts) -/

/-- Filter options consumed by `QueryService.buildGraphQLQuery`
(`QueryOptions` from src/types as used there). -/
structure QueryOptions where
  schema : Option String
  recipient : Option String
  attester : Option String
  limit : Option Nat
  offset : Option Nat
deriving DecidableEq

/-- Options consumed by `QueryService.buildSchemaQuery`. -/
structure SchemaQueryOptions where
  creator : Option String
  limit : Option Nat
deriving DecidableEq

/-- Renders one conditional filter: a JavaScript `if (value)` push, so an
absent or empty (falsy) string contributes nothing. -/
def pushIf (value : Option String) (render : String → String) : List String :=
  match value with
  | none => []
  | some s => if s == "" then [] else [render s]

/-- Equality filters of the attestation query, in source push order. -/
def attestationConditions (o : QueryOptions) : List String :=
  pushIf o.schema (fun s => "schemaId: \"" ++ s ++ "\"") ++
    pushIf o.recipient (fun s => "recipient: \"" ++ s ++ "\"") ++
    pushIf o.attester (fun s => "attester: \"" ++ s ++ "\"")

/-- The `where` clause: present only when some condition is. -/
def attestationWhereClause (o : QueryOptions) : String :=
  let conditions := attestationConditions o
  if conditions.length > 0 then
    "where: \x7b " ++ String.intercalate ", " conditions ++ " \x7d"
  else ""

/-- The `first` clause; a falsy limit (absent or 0) yields the default 100. -/
def attestationLimitClause (o : QueryOptions) : String :=
  match o.limit with
  | none => "first: 100"
  | some n => if n == 0 then "first: 100" else "first: " ++ toString n

/-- The `skip` clause; a falsy offset (absent or 0) is omitted. -/
def attestationOffsetClause (o : QueryOptions) : String :=
  match o.offset with
  | none => ""
  | some n => if n == 0 then "" else "skip: " ++ toString n

/-- Argument list of the attestation query: empty clauses filtered out and
the rest comma-joined, as `[...].filter(Boolean).join(', ')` does. -/
def attestationQueryArgs (o : QueryOptions) : String :=
  String.intercalate ", "
    (([attestationWhereClause o, attestationLimitClause o,
       attestationOffsetClause o]).filter (fun s => !(s == "")))

/-- Embedding of `QueryService.buildGraphQLQuery`: the exact template text
with the rendered argument list interpolated. -/
def buildGraphQLQuery (o : QueryOptions) : String :=
  "\n      query \x7b\n        attestations(" ++ attestationQueryArgs o ++
    ") \x7b\n          id\n          uid\n          schema \x7b\n            id\n            schema\n          \x7d\n          recipient\n          attester\n          time\n          timeCreated\n          revocationTime\n          expirationTime\n          revocable\n          data\n          decodedDataJson\n        \x7d\n      \x7d\n    "

/-- Equality filters of the schema query. -/
def schemaConditions (o : SchemaQueryOptions) : List String :=
  pushIf o.creator (fun s => "creator: \"" ++ s ++ "\"")

/-- The schema query's `where` clause. -/
def schemaWhereClause (o : SchemaQueryOptions) : String :=
  let conditions := schemaConditions o
  if conditions.length > 0 then
    "where: \x7b " ++ String.intercalate ", " conditions ++ " \x7d"
  else ""

/-- The schema query's `first` clause; falsy limit yields the default 50. -/
def schemaLimitClause (o : SchemaQueryOptions) : String :=
  match o.limit with
  | none => "first: 50"
  | some n => if n == 0 then "first: 50" else "first: " ++ toString n

/-- Embedding of `QueryService.buildSchemaQuery`. -/
def buildSchemaQuery (o : SchemaQueryOptions) : String :=
  "\n      query \x7b\n        schemas(" ++
    String.intercalate ", "
      (([schemaWhereClause o, schemaLimitClause o]).filter
        (fun s => !(s == ""))) ++
    ") \x7b\n          id\n          schema\n          creator\n          resolver\n          revocable\n          time\n        \x7d\n      \x7d\n    "

/-! ## Schema codec type inference (`BlockchainAdapter.inferType`,
src/commands/query.ts) -/

/-- Runtime value shapes distinguished by `typeof` in `inferType`. -/
inductive RuntimeValue where
  | str (s : String)
  | num (n : Int)
  | boolean (b : Bool)
  | other
deriving DecidableEq

/-- Modelled from the spec: `ethers.isAddress` is an external library
predicate not part of this repository; the spec describes it as matching
an address pattern of `0x` followed by 40 hex characters. -/
def isAddress (s : String) : Bool :=
  match s.data with
  | '0' :: 'x' :: rest => rest.length == 40 && rest.all isHexDigit
  | _ => false

/-- Embedding of `BlockchainAdapter.inferType`. -/
def inferType : RuntimeValue → String
  | .str s =>
    if isAddress s then "address"
    else if beginsWith "0x".data s.data then "bytes32"
    else "string"
  | .num _ => "uint256"
  | .boolean _ => "bool"
  | .other => "string"

/-! ## Verification engine (`verifyAttestation`, src/commands/verify.ts)

External calls are modelled by a `VerifyEnv` record holding the outcome of
the indexer query and of the two registry lookups a run would observe;
`Except.error` is a thrown/rejected call.  Alongside the result the
embedding returns the trace of external calls performed, in order. -/

/-- Nested `schema {id, schema}` object of an indexer attestation record. -/
structure SchemaRef where
  id : String
  schema : String
deriving DecidableEq

/-- Indexer attestation record; fields that `verifyAttestation` never
consults (recipient, attester, times, payload) are omitted. -/
structure Attestation where
  uid : String
  schema : SchemaRef
  revocationTime : Nat
  expirationTime : Nat
deriving DecidableEq

/-- On-chain attestation as consulted by the cross-source check (only its
`uid` field is read). -/
structure OnChainAttestation where
  uid : String
deriving DecidableEq

/-- Registry schema record as consulted by the schema check (only its
`schema` definition string is read; the empty string is falsy). -/
structure SchemaRecord where
  schema : String
deriving DecidableEq

/-- The `checks` argument of `verifyAttestation`. -/
structure VerifyChecks where
  checkExpiration : Bool
  checkRevocation : Bool
deriving DecidableEq

/-- The `VerificationResult` record; the source's `exists` field is named
`exists_` because `exists` is a Lean keyword. -/
structure VerificationResult where
  uid : String
  isValid : Bool
  exists_ : Bool
  isRevoked : Bool
  isExpired : Bool
  attestation : Option Attestation
  issues : List String
deriving DecidableEq

/-- External calls a verification run can perform. -/
inductive ExtCall where
  | indexerQuery
  | registryGetAttestation
  | registryGetSchema
deriving DecidableEq

/-- Outcomes of the external calls observed by one verification run. -/
structure VerifyEnv where
  getAttestationsByUID : Except String (List Attestation)
  getAttestation : Except String (Option OnChainAttestation)
  getSchema : Except String (Option SchemaRecord)
  nowSeconds : Nat

/-- Modelled from the spec: JavaScript `Date#toISOString` (standard
library, not part of this repository) renders an epoch-milliseconds value
as an ISO-8601 instant; no claim depends on the exact text, so the decimal
rendering stands in for it. -/
def toISOStringStub (ms : Nat) : String := toString ms

/-- The result object as initialised at the top of `verifyAttestation`. -/
def initialResult (uid : String) : VerificationResult :=
  { uid := uid, isValid := true, exists_ := false, isRevoked := false,
    isExpired := false, attestation := none, issues := [] }

/-- Step 2: revocation check. -/
def revocationCheck (checks : VerifyChecks) (attestation : Attestation)
    (r : VerificationResult) : VerificationResult :=
  if checks.checkRevocation ∧ attestation.revocationTime > 0 then
    { r with
      isRevoked := true
      isValid := false
      issues := r.issues ++
        ["Attestation was revoked on " ++
          toISOStringStub (attestation.revocationTime * 1000)] }
  else r

/-- Step 3: expiration check (seconds-resolution comparison with `now`). -/
def expirationCheck (checks : VerifyChecks) (attestation : Attestation)
    (nowSeconds : Nat) (r : VerificationResult) : VerificationResult :=
  if checks.checkExpiration ∧ attestation.expirationTime > 0 then
    if attestation.expirationTime < nowSeconds then
      { r with
        isExpired := true
        isValid := false
        issues := r.issues ++
          ["Attestation expired on " ++
            toISOStringStub (attestation.expirationTime * 1000)] }
    else r
  else r

/-- Step 4: cross-source consistency check against the on-chain registry.
A failed lookup only appends a warning; a missing record or a UID mismatch
(`!onChainAttestation || onChainAttestation.uid !== uid`) is fatal. -/
def crossSourceCheck (uid : String)
    (lookup : Except String (Option OnChainAttestation))
    (r : VerificationResult) : VerificationResult :=
  match lookup with
  | .ok none =>
    { r with
      isValid := false
      issues := r.issues ++
        ["Attestation data mismatch between on-chain and indexer"] }
  | .ok (some onChainAttestation) =>
    if onChainAttestation.uid ≠ uid then
      { r with
        isValid := false
        issues := r.issues ++
          ["Attestation data mismatch between on-chain and indexer"] }
    else r
  | .error _ =>
    { r with issues := r.issues ++ ["Warning: Could not verify on-chain data"] }

/-- Step 5: schema existence check (`!schema || !schema.schema`). -/
def schemaCheck (lookup : Except String (Option SchemaRecord))
    (r : VerificationResult) : VerificationResult :=
  match lookup with
  | .ok none =>
    { r with
      isValid := false
      issues := r.issues ++ ["Referenced schema does not exist or is invalid"] }
  | .ok (some schemaRecord) =>
    if schemaRecord.schema = "" then
      { r with
        isValid := false
        issues := r.issues ++
          ["Referenced schema does not exist or is invalid"] }
    else r
  | .error _ =>
    { r with isValid := false, issues := r.issues ++ ["Failed to validate schema"] }

/-- Step 6: the informational entry when no issue was recorded. -/
def finalizeIssues (r : VerificationResult) : VerificationResult :=
  if r.issues = [] then { r with issues := ["All checks passed"] } else r

/-- Body of the outer `try` block of `verifyAttestation`.  The only
operation inside it that can throw is the indexer query (the two registry
lookups are wrapped in their own `try`/`catch`), so the error component
carries its message.  The second component is the trace of external calls
performed. -/
def verifyTryBody (uid : String) (checks : VerifyChecks) (env : VerifyEnv) :
    Except String VerificationResult × List ExtCall :=
  match env.getAttestationsByUID with
  | .error message => (.error message, [.indexerQuery])
  | .ok [] =>
    (.ok { initialResult uid with
           isValid := false
           issues := ["Attestation does not exist"] }, [.indexerQuery])
  | .ok (attestation :: _) =>
    let r0 := { initialResult uid with
                exists_ := true
                attestation := some attestation }
    let r1 := revocationCheck checks attestation r0
    let r2 := expirationCheck checks attestation env.nowSeconds r1
    let r3 := crossSourceCheck uid env.getAttestation r2
    let r4 := schemaCheck env.getSchema r3
    (.ok (finalizeIssues r4),
      [.indexerQuery, .registryGetAttestation, .registryGetSchema])

/-- Embedding of `verifyAttestation`: the outer `catch` converts any
thrown error into a returned result, so the `Except` layer (a rejected
promise) is never `error`. -/
def verifyAttestation (uid : String) (checks : VerifyChecks)
    (env : VerifyEnv) : Except String (VerificationResult × List ExtCall) :=
  match verifyTryBody uid checks env with
  | (.ok r, calls) => .ok (r, calls)
  | (.error message, calls) =>
    .ok ({ initialResult uid with
           isValid := false
           issues := ["Verification failed: " ++ message] }, calls)

/-- Classifies an issue entry as a failure: anything other than the
informational "All checks passed" entry and the non-fatal warning entries
(which begin with "Warning: "). -/
def isFailureIssue (s : String) : Bool :=
  !((s.data == "All checks passed".data) ||
    beginsWith "Warning: ".data s.data)

/-- Boolean form of "no failure entry appears in the issues list". -/
def noFailureIssues (r : VerificationResult) : Bool :=
  r.issues.all fun s => !(isFailureIssue s)

/-! ## Helper lemmas -/

/-- Strings with different prefixes of data differ. -/
theorem ne_of_take (n : Nat) {s t : String}
    (h : s.data.take n ≠ t.data.take n) : s ≠ t :=
  fun e => h (by rw [e])

/-- Boolean form of `ne_of_take`, dischargeable by `rfl` even when one
string has a free suffix: the comparison never forces it. -/
theorem ne_of_take_beq (n : Nat) {s t : String}
    (h : (s.data.take n == t.data.take n) = false) : s ≠ t := by
  intro e
  rw [e] at h
  simp at h

theorem finalizeIssues_isValid (r : VerificationResult) :
    (finalizeIssues r).isValid = r.isValid := by
  unfold finalizeIssues; split <;> rfl

theorem finalizeIssues_isExpired (r : VerificationResult) :
    (finalizeIssues r).isExpired = r.isExpired := by
  unfold finalizeIssues; split <;> rfl

theorem finalizeIssues_of_ne_nil {r : VerificationResult}
    (h : r.issues ≠ []) : finalizeIssues r = r := by
  unfold finalizeIssues; rw [if_neg h]

theorem revocationCheck_isExpired (c : VerifyChecks) (a : Attestation)
    (r : VerificationResult) :
    (revocationCheck c a r).isExpired = r.isExpired := by
  unfold revocationCheck; split <;> rfl

theorem crossSourceCheck_isExpired (uid : String)
    (lk : Except String (Option OnChainAttestation))
    (r : VerificationResult) :
    (crossSourceCheck uid lk r).isExpired = r.isExpired := by
  unfold crossSourceCheck
  split <;> first | rfl | (split <;> rfl)

theorem schemaCheck_isExpired (lk : Except String (Option SchemaRecord))
    (r : VerificationResult) :
    (schemaCheck lk r).isExpired = r.isExpired := by
  unfold schemaCheck
  split <;> first | rfl | (split <;> rfl)

theorem crossSourceCheck_isValid_false (uid : String)
    (lk : Except String (Option OnChainAttestation))
    {r : VerificationResult} (h : r.isValid = false) :
    (crossSourceCheck uid lk r).isValid = false := by
  unfold crossSourceCheck
  split <;> first | rfl | exact h | (split <;> first | rfl | exact h)

theorem schemaCheck_isValid_false
    (lk : Except String (Option SchemaRecord))
    {r : VerificationResult} (h : r.isValid = false) :
    (schemaCheck lk r).isValid = false := by
  unfold schemaCheck
  split <;> first | rfl | exact h | (split <;> first | rfl | exact h)

theorem crossSourceCheck_issues_tail (uid : String)
    (lk : Except String (Option OnChainAttestation))
    (r : VerificationResult) :
    ∃ t, (crossSourceCheck uid lk r).issues = r.issues ++ t := by
  rcases lk with m | o
  · exact ⟨_, rfl⟩
  · rcases o with _ | oc
    · exact ⟨_, rfl⟩
    · by_cases h : oc.uid ≠ uid
      · simp only [crossSourceCheck, if_pos h]
        exact ⟨_, rfl⟩
      · simp only [crossSourceCheck, if_neg h]
        exact ⟨[], (List.append_nil _).symm⟩

theorem schemaCheck_issues_tail (lk : Except String (Option SchemaRecord))
    (r : VerificationResult) :
    ∃ t, (schemaCheck lk r).issues = r.issues ++ t := by
  rcases lk with m | o
  · exact ⟨_, rfl⟩
  · rcases o with _ | sr
    · exact ⟨_, rfl⟩
    · by_cases h : sr.schema = ""
      · simp only [schemaCheck, if_pos h]
        exact ⟨_, rfl⟩
      · simp only [schemaCheck, if_neg h]
        exact ⟨[], (List.append_nil _).symm⟩

/-- Characterization of a run whose indexer query returned a non-empty
list: the pipeline of the five checks, with all three external calls
traced. -/
theorem verify_ok_cons (uid : String) (checks : VerifyChecks)
    (a : Attestation) (rest : List Attestation)
    (reg : Except String (Option OnChainAttestation))
    (sch : Except String (Option SchemaRecord)) (now : Nat) :
    verifyAttestation uid checks
      { getAttestationsByUID := .ok (a :: rest), getAttestation := reg,
        getSchema := sch, nowSeconds := now } =
      .ok (finalizeIssues (schemaCheck sch (crossSourceCheck uid reg
          (expirationCheck checks a now (revocationCheck checks a
            { initialResult uid with
              exists_ := true
              attestation := some a })))),
        [.indexerQuery, .registryGetAttestation, .registryGetSchema]) := rfl

@[simp] theorem isFailureIssue_not_exist :
    isFailureIssue "Attestation does not exist" = true := rfl

@[simp] theorem isFailureIssue_revoked (y : String) :
    isFailureIssue ("Attestation was revoked on " ++ y) = true := rfl

@[simp] theorem isFailureIssue_expired (y : String) :
    isFailureIssue ("Attestation expired on " ++ y) = true := rfl

@[simp] theorem isFailureIssue_mismatch :
    isFailureIssue "Attestation data mismatch between on-chain and indexer" =
      true := rfl

@[simp] theorem isFailureIssue_warning :
    isFailureIssue "Warning: Could not verify on-chain data" = false := rfl

@[simp] theorem isFailureIssue_schema_missing :
    isFailureIssue "Referenced schema does not exist or is invalid" = true := rfl

@[simp] theorem isFailureIssue_schema_failed :
    isFailureIssue "Failed to validate schema" = true := rfl

@[simp] theorem isFailureIssue_vfail (y : String) :
    isFailureIssue ("Verification failed: " ++ y) = true := rfl

@[simp] theorem isFailureIssue_pass :
    isFailureIssue "All checks passed" = false := rfl

theorem pass_ne_revoked (y : String) :
    "All checks passed" ≠ "Attestation was revoked on " ++ y :=
  ne_of_take_beq 3 rfl

theorem pass_ne_expired (y : String) :
    "All checks passed" ≠ "Attestation expired on " ++ y :=
  ne_of_take_beq 3 rfl

theorem warning_ne_revoked (y : String) :
    "Warning: Could not verify on-chain data" ≠
      "Attestation was revoked on " ++ y :=
  ne_of_take_beq 1 rfl

theorem warning_ne_expired (y : String) :
    "Warning: Could not verify on-chain data" ≠
      "Attestation expired on " ++ y :=
  ne_of_take_beq 1 rfl

theorem inv_revocationCheck (c : VerifyChecks) (a : Attestation)
    {r : VerificationResult} (h : r.isValid = noFailureIssues r) :
    (revocationCheck c a r).isValid =
      noFailureIssues (revocationCheck c a r) := by
  unfold revocationCheck
  split
  · simp [noFailureIssues, List.all_append]
  · exact h

theorem inv_expirationCheck (c : VerifyChecks) (a : Attestation) (now : Nat)
    {r : VerificationResult} (h : r.isValid = noFailureIssues r) :
    (expirationCheck c a now r).isValid =
      noFailureIssues (expirationCheck c a now r) := by
  unfold expirationCheck
  split
  · split
    · simp [noFailureIssues, List.all_append]
    · exact h
  · exact h

theorem inv_crossSourceCheck (uid : String)
    (lk : Except String (Option OnChainAttestation))
    {r : VerificationResult} (h : r.isValid = noFailureIssues r) :
    (crossSourceCheck uid lk r).isValid =
      noFailureIssues (crossSourceCheck uid lk r) := by
  rcases lk with m | o
  · show r.isValid = noFailureIssues { r with
      issues := r.issues ++ ["Warning: Could not verify on-chain data"] }
    simpa [noFailureIssues, List.all_append] using h
  · rcases o with _ | oc
    · show false = noFailureIssues { r with
        isValid := false
        issues := r.issues ++
          ["Attestation data mismatch between on-chain and indexer"] }
      simp [noFailureIssues, List.all_append]
    · by_cases hne : oc.uid ≠ uid
      · simp only [crossSourceCheck, if_pos hne]
        simp [noFailureIssues, List.all_append]
      · simp only [crossSourceCheck, if_neg hne]
        exact h

theorem inv_schemaCheck (lk : Except String (Option SchemaRecord))
    {r : VerificationResult} (h : r.isValid = noFailureIssues r) :
    (schemaCheck lk r).isValid = noFailureIssues (schemaCheck lk r) := by
  rcases lk with m | o
  · show false = noFailureIssues { r with
      isValid := false
      issues := r.issues ++ ["Failed to validate schema"] }
    simp [noFailureIssues, List.all_append]
  · rcases o with _ | sr
    · show false = noFailureIssues { r with
        isValid := false
        issues := r.issues ++
          ["Referenced schema does not exist or is invalid"] }
      simp [noFailureIssues, List.all_append]
    · by_cases hs : sr.schema = ""
      · simp only [schemaCheck, if_pos hs]
        simp [noFailureIssues, List.all_append]
      · simp only [schemaCheck, if_neg hs]
        exact h

theorem inv_finalizeIssues {r : VerificationResult}
    (h : r.isValid = noFailureIssues r) :
    (finalizeIssues r).isValid = noFailureIssues (finalizeIssues r) := by
  unfold finalizeIssues
  split
  · next hnil =>
    show r.isValid = noFailureIssues { r with issues := ["All checks passed"] }
    rw [h]
    simp [noFailureIssues, hnil]
  · exact h

theorem pass_ne_vfail (y : String) :
    "All checks passed" ≠ "Verification failed: " ++ y :=
  ne_of_take_beq 1 rfl

theorem passfree_revocationCheck (c : VerifyChecks) (a : Attestation)
    {r : VerificationResult} (h : "All checks passed" ∉ r.issues) :
    "All checks passed" ∉ (revocationCheck c a r).issues := by
  unfold revocationCheck
  split
  · intro hm
    rcases List.mem_append.mp hm with h1 | h1
    · exact h h1
    · exact pass_ne_revoked _ (List.mem_singleton.mp h1)
  · exact h

theorem passfree_expirationCheck (c : VerifyChecks) (a : Attestation)
    (now : Nat) {r : VerificationResult}
    (h : "All checks passed" ∉ r.issues) :
    "All checks passed" ∉ (expirationCheck c a now r).issues := by
  unfold expirationCheck
  split
  · split
    · intro hm
      rcases List.mem_append.mp hm with h1 | h1
      · exact h h1
      · exact pass_ne_expired _ (List.mem_singleton.mp h1)
    · exact h
  · exact h

theorem passfree_crossSourceCheck (uid : String)
    (lk : Except String (Option OnChainAttestation))
    {r : VerificationResult} (h : "All checks passed" ∉ r.issues) :
    "All checks passed" ∉ (crossSourceCheck uid lk r).issues := by
  rcases lk with m | o
  · intro hm
    rcases List.mem_append.mp hm with h1 | h1
    · exact h h1
    · exact absurd (List.mem_singleton.mp h1) (by decide)
  · rcases o with _ | oc
    · intro hm
      rcases List.mem_append.mp hm with h1 | h1
      · exact h h1
      · exact absurd (List.mem_singleton.mp h1) (by decide)
    · by_cases hne : oc.uid ≠ uid
      · simp only [crossSourceCheck, if_pos hne]
        intro hm
        rcases List.mem_append.mp hm with h1 | h1
        · exact h h1
        · exact absurd (List.mem_singleton.mp h1) (by decide)
      · simp only [crossSourceCheck, if_neg hne]
        exact h

theorem passfree_schemaCheck (lk : Except String (Option SchemaRecord))
    {r : VerificationResult} (h : "All checks passed" ∉ r.issues) :
    "All checks passed" ∉ (schemaCheck lk r).issues := by
  rcases lk with m | o
  · intro hm
    rcases List.mem_append.mp hm with h1 | h1
    · exact h h1
    · exact absurd (List.mem_singleton.mp h1) (by decide)
  · rcases o with _ | sr
    · intro hm
      rcases List.mem_append.mp hm with h1 | h1
      · exact h h1
      · exact absurd (List.mem_singleton.mp h1) (by decide)
    · by_cases hs : sr.schema = ""
      · simp only [schemaCheck, if_pos hs]
        intro hm
        rcases List.mem_append.mp hm with h1 | h1
        · exact h h1
        · exact absurd (List.mem_singleton.mp h1) (by decide)
      · simp only [schemaCheck, if_neg hs]
        exact h

theorem warnfree_revocationCheck (c : VerifyChecks) (a : Attestation)
    {r : VerificationResult}
    (h : "Warning: Could not verify on-chain data" ∉ r.issues) :
    "Warning: Could not verify on-chain data" ∉
      (revocationCheck c a r).issues := by
  unfold revocationCheck
  split
  · intro hm
    rcases List.mem_append.mp hm with h1 | h1
    · exact h h1
    · exact warning_ne_revoked _ (List.mem_singleton.mp h1)
  · exact h

theorem warnfree_expirationCheck (c : VerifyChecks) (a : Attestation)
    (now : Nat) {r : VerificationResult}
    (h : "Warning: Could not verify on-chain data" ∉ r.issues) :
    "Warning: Could not verify on-chain data" ∉
      (expirationCheck c a now r).issues := by
  unfold expirationCheck
  split
  · split
    · intro hm
      rcases List.mem_append.mp hm with h1 | h1
      · exact h h1
      · exact warning_ne_expired _ (List.mem_singleton.mp h1)
    · exact h
  · exact h

theorem schemaCheck_issues_tail_mem (lk : Except String (Option SchemaRecord))
    (r : VerificationResult) :
    ∃ t, (schemaCheck lk r).issues = r.issues ++ t ∧
      ∀ s ∈ t, s = "Referenced schema does not exist or is invalid" ∨
        s = "Failed to validate schema" := by
  rcases lk with m | o
  · refine ⟨_, rfl, ?_⟩
    intro s hs
    exact Or.inr (List.mem_singleton.mp hs)
  · rcases o with _ | sr
    · refine ⟨_, rfl, ?_⟩
      intro s hs
      exact Or.inl (List.mem_singleton.mp hs)
    · by_cases hs : sr.schema = ""
      · simp only [schemaCheck, if_pos hs]
        refine ⟨_, rfl, ?_⟩
        intro s hsm
        exact Or.inl (List.mem_singleton.mp hsm)
      · simp only [schemaCheck, if_neg hs]
        exact ⟨[], (List.append_nil _).symm, by simp⟩

theorem schemaCheck_isValid_congr (lk : Except String (Option SchemaRecord))
    {x y : VerificationResult} (h : x.isValid = y.isValid) :
    (schemaCheck lk x).isValid = (schemaCheck lk y).isValid := by
  rcases lk with m | o
  · rfl
  · rcases o with _ | sr
    · rfl
    · by_cases hs : sr.schema = ""
      · simp only [schemaCheck, if_pos hs]
      · simp only [schemaCheck, if_neg hs]
        exact h

/-! ## Claims -/

/-- C2 counterexample: a run whose registry lookup throws while every
other check passes yields `isValid=true` with the single issue
"Warning: Could not verify on-chain data" — an issues list containing an
entry other than "All checks passed" while `isValid` remains true, so the
claimed equivalence and the claimed uniqueness of the informational entry
both fail on this input. -/
theorem C2_counterexample :
    verifyAttestation "0xu" { checkExpiration := true, checkRevocation := true }
      { getAttestationsByUID :=
          .ok [{ uid := "0xu"
                 schema := { id := "0xs", schema := "string name" }
                 revocationTime := 0
                 expirationTime := 0 }]
        getAttestation := .error "network down"
        getSchema := .ok (some { schema := "string name" })
        nowSeconds := 1000 } =
      .ok ({ uid := "0xu"
             isValid := true
             exists_ := true
             isRevoked := false
             isExpired := false
             attestation :=
               some { uid := "0xu"
                      schema := { id := "0xs", schema := "string name" }
                      revocationTime := 0
                      expirationTime := 0 }
             issues := ["Warning: Could not verify on-chain data"] },
        [ExtCall.indexerQuery, ExtCall.registryGetAttestation,
         ExtCall.registryGetSchema]) ∧
    "Warning: Could not verify on-chain data" ≠ "All checks passed" :=
  ⟨rfl, by decide⟩

/-- C2 amended: `isValid` is true iff the issues list contains no fatal
entry, where the informational "All checks passed" entry and the
non-fatal warning entries (beginning "Warning: ") do not count as
failures; "All checks passed", when present, is the whole issues list
(it is appended exactly when no other issue was recorded), and the
issues list is never empty — but a lone warning is a further case where
the list is non-empty while `isValid` stays true. -/
theorem C2_amended_validity_invariant (uid : String) (checks : VerifyChecks)
    (env : VerifyEnv) (r : VerificationResult) (calls : List ExtCall)
    (hrun : verifyAttestation uid checks env = .ok (r, calls)) :
    r.isValid = noFailureIssues r ∧
    ("All checks passed" ∈ r.issues → r.issues = ["All checks passed"]) ∧
    r.issues ≠ [] := by
  rcases env with ⟨idx, reg, sch, now⟩
  rcases idx with m | attestations
  · have h2 : ({ uid := uid
                 isValid := false
                 exists_ := false
                 isRevoked := false
                 isExpired := false
                 attestation := none
                 issues := ["Verification failed: " ++ m] } :
        VerificationResult) = r :=
      congrArg Prod.fst (Except.ok.inj hrun)
    subst h2
    refine ⟨by simp [noFailureIssues], ?_, by simp⟩
    intro hm
    exact absurd (List.mem_singleton.mp hm) (pass_ne_vfail m)
  · rcases attestations with _ | ⟨a, rest⟩
    · have h2 : ({ uid := uid
                   isValid := false
                   exists_ := false
                   isRevoked := false
                   isExpired := false
                   attestation := none
                   issues := ["Attestation does not exist"] } :
          VerificationResult) = r :=
        congrArg Prod.fst (Except.ok.inj hrun)
      subst h2
      refine ⟨by simp [noFailureIssues], ?_, by simp⟩
      intro hm
      exact absurd (List.mem_singleton.mp hm) (by decide)
    · have h2 : finalizeIssues (schemaCheck sch (crossSourceCheck uid reg
          (expirationCheck checks a now (revocationCheck checks a
            { initialResult uid with
              exists_ := true
              attestation := some a })))) = r :=
        congrArg Prod.fst (Except.ok.inj hrun)
      subst h2
      set X := schemaCheck sch (crossSourceCheck uid reg
        (expirationCheck checks a now (revocationCheck checks a
          { initialResult uid with
            exists_ := true
            attestation := some a }))) with hXdef
      have hInvX : X.isValid = noFailureIssues X :=
        inv_schemaCheck sch (inv_crossSourceCheck uid reg
          (inv_expirationCheck checks a now
            (inv_revocationCheck checks a rfl)))
      have hPassX : "All checks passed" ∉ X.issues :=
        passfree_schemaCheck sch (passfree_crossSourceCheck uid reg
          (passfree_expirationCheck checks a now
            (passfree_revocationCheck checks a (by simp [initialResult]))))
      refine ⟨inv_finalizeIssues hInvX, ?_, ?_⟩
      · intro hm
        by_cases hnil : X.issues = []
        · simp only [finalizeIssues, if_pos hnil]
        · simp only [finalizeIssues, if_neg hnil] at hm
          exact absurd hm hPassX
      · by_cases hnil : X.issues = []
        · simp only [finalizeIssues, if_pos hnil]
          simp
        · simp only [finalizeIssues, if_neg hnil]
          exact hnil

/-- C2 amended, witness: the amended invariant evaluated on a run with a
revoked attestation and a failing registry lookup. -/
theorem C2_amended_validity_invariant_witness :
    (({ uid := "0xw"
        isValid := false
        exists_ := true
        isRevoked := true
        isExpired := false
        attestation :=
          some { uid := "0xw"
                 schema := { id := "0xs", schema := "string name" }
                 revocationTime := 7
                 expirationTime := 0 }
        issues := ["Attestation was revoked on " ++ toISOStringStub 7000,
          "Warning: Could not verify on-chain data"] } :
          VerificationResult).isValid =
      noFailureIssues
        { uid := "0xw"
          isValid := false
          exists_ := true
          isRevoked := true
          isExpired := false
          attestation :=
            some { uid := "0xw"
                   schema := { id := "0xs", schema := "string name" }
                   revocationTime := 7
                   expirationTime := 0 }
          issues := ["Attestation was revoked on " ++ toISOStringStub 7000,
            "Warning: Could not verify on-chain data"] }) ∧
    ("All checks passed" ∈
        ["Attestation was revoked on " ++ toISOStringStub 7000,
          "Warning: Could not verify on-chain data"] →
      ["Attestation was revoked on " ++ toISOStringStub 7000,
        "Warning: Could not verify on-chain data"] =
        ["All checks passed"]) ∧
    (["Attestation was revoked on " ++ toISOStringStub 7000,
      "Warning: Could not verify on-chain data"] : List String) ≠ [] :=
  C2_amended_validity_invariant "0xw"
    { checkExpiration := true, checkRevocation := true }
    { getAttestationsByUID :=
        .ok [{ uid := "0xw"
               schema := { id := "0xs", schema := "string name" }
               revocationTime := 7
               expirationTime := 0 }]
      getAttestation := .error "down"
      getSchema := .ok (some { schema := "string name" })
      nowSeconds := 50 } _ _ rfl

/-- C1: for every UID whose indexer query returns zero matching
attestations, `verify` returns `exists=false`, `isValid=false`, issues
exactly `["Attestation does not exist"]`, and returns immediately having
performed only the indexer query — no on-chain attestation fetch and no
schema fetch, whatever those lookups would have produced. -/
theorem C1_zero_matches_short_circuit (uid : String) (checks : VerifyChecks)
    (reg : Except String (Option OnChainAttestation))
    (sch : Except String (Option SchemaRecord)) (now : Nat) :
    verifyAttestation uid checks
      { getAttestationsByUID := .ok [], getAttestation := reg,
        getSchema := sch, nowSeconds := now } =
      .ok ({ uid := uid, isValid := false, exists_ := false,
             isRevoked := false, isExpired := false, attestation := none,
             issues := ["Attestation does not exist"] },
        [ExtCall.indexerQuery]) := rfl

/-- C3 counterexample: when the indexer existence query fails, `verify`
does not propagate the failure to the caller, contrary to the claim — it
returns a normal result whose single issue is
"Verification failed: transport failure". -/
theorem C3_counterexample :
    verifyAttestation "0xabc" { checkExpiration := true, checkRevocation := true }
      { getAttestationsByUID := .error "transport failure",
        getAttestation := .ok none, getSchema := .ok none, nowSeconds := 0 } =
      .ok ({ uid := "0xabc", isValid := false, exists_ := false,
             isRevoked := false, isExpired := false, attestation := none,
             issues := ["Verification failed: transport failure"] },
        [ExtCall.indexerQuery]) ∧
    verifyAttestation "0xabc" { checkExpiration := true, checkRevocation := true }
      { getAttestationsByUID := .error "transport failure",
        getAttestation := .ok none, getSchema := .ok none, nowSeconds := 0 } ≠
      Except.error "transport failure" := by
  refine ⟨rfl, ?_⟩
  intro h
  exact Except.noConfusion h

/-- C3 amended: `verify` never rejects — every run returns a result — and
an indexer existence-check failure is caught like any other error,
yielding `isValid=false` with the single issue
"Verification failed: <message>" and no registry calls. -/
theorem C3_amended_catch_all (uid : String) (checks : VerifyChecks)
    (env : VerifyEnv) :
    (∃ p, verifyAttestation uid checks env = Except.ok p) ∧
    (∀ message, env.getAttestationsByUID = Except.error message →
      verifyAttestation uid checks env =
        .ok ({ uid := uid, isValid := false, exists_ := false,
               isRevoked := false, isExpired := false, attestation := none,
               issues := ["Verification failed: " ++ message] },
          [ExtCall.indexerQuery])) := by
  constructor
  · unfold verifyAttestation
    rcases h : verifyTryBody uid checks env with ⟨res, calls⟩
    cases res <;> exact ⟨_, rfl⟩
  · intro message hm
    unfold verifyAttestation verifyTryBody
    rw [hm]
    rfl

/-- C3 amended, witness: the amended claim evaluated on a concrete failing
indexer query. -/
theorem C3_amended_catch_all_witness :
    verifyAttestation "0xdef" { checkExpiration := true, checkRevocation := false }
      { getAttestationsByUID := .error "boom", getAttestation := .ok none,
        getSchema := .ok none, nowSeconds := 5 } =
      .ok ({ uid := "0xdef", isValid := false, exists_ := false,
             isRevoked := false, isExpired := false, attestation := none,
             issues := ["Verification failed: boom"] },
        [ExtCall.indexerQuery]) :=
  (C3_amended_catch_all "0xdef"
    { checkExpiration := true, checkRevocation := false } _).2 "boom" rfl

/-- C5: for every existing attestation verified with
`checkExpiration=true`, `isExpired` is true exactly when the record's
expiration timestamp is nonzero and strictly below the current time in
seconds; a zero expiration timestamp never expires, and an expired run
forces `isValid=false` with an expiration issue appended. -/
theorem C5_expiration_exact (uid : String) (checks : VerifyChecks)
    (a : Attestation) (rest : List Attestation)
    (reg : Except String (Option OnChainAttestation))
    (sch : Except String (Option SchemaRecord)) (now : Nat)
    (r : VerificationResult) (calls : List ExtCall)
    (hche : checks.checkExpiration = true)
    (hrun : verifyAttestation uid checks
        { getAttestationsByUID := .ok (a :: rest), getAttestation := reg,
          getSchema := sch, nowSeconds := now } = .ok (r, calls)) :
    (r.isExpired = true ↔ a.expirationTime ≠ 0 ∧ a.expirationTime < now) ∧
    (a.expirationTime = 0 → r.isExpired = false) ∧
    (r.isExpired = true → r.isValid = false ∧
      ("Attestation expired on " ++ toISOStringStub (a.expirationTime * 1000))
        ∈ r.issues) := by
  have h2 : finalizeIssues (schemaCheck sch (crossSourceCheck uid reg
      (expirationCheck checks a now (revocationCheck checks a
        { initialResult uid with
          exists_ := true
          attestation := some a })))) = r :=
    congrArg Prod.fst (Except.ok.inj hrun)
  subst h2
  set r1 := revocationCheck checks a
    { initialResult uid with
      exists_ := true
      attestation := some a } with hr1def
  have hexp1 : r1.isExpired = false := by
    rw [hr1def, revocationCheck_isExpired]
    rfl
  by_cases hc : a.expirationTime ≠ 0 ∧ a.expirationTime < now
  · have hexpEq : expirationCheck checks a now r1 =
        { r1 with
          isExpired := true
          isValid := false
          issues := r1.issues ++ ["Attestation expired on " ++
            toISOStringStub (a.expirationTime * 1000)] } := by
      unfold expirationCheck
      rw [if_pos ⟨hche, Nat.pos_of_ne_zero hc.1⟩, if_pos hc.2]
    rw [hexpEq]
    set r2 := { r1 with
      isExpired := true
      isValid := false
      issues := r1.issues ++ ["Attestation expired on " ++
        toISOStringStub (a.expirationTime * 1000)] } with hr2def
    obtain ⟨t3, ht3⟩ := crossSourceCheck_issues_tail uid reg r2
    obtain ⟨t4, ht4⟩ := schemaCheck_issues_tail sch (crossSourceCheck uid reg r2)
    have hne : (schemaCheck sch (crossSourceCheck uid reg r2)).issues ≠ [] := by
      rw [ht4, ht3, hr2def]
      simp
    refine ⟨?_, fun h0 => absurd h0 hc.1, fun _ => ⟨?_, ?_⟩⟩
    · rw [finalizeIssues_isExpired, schemaCheck_isExpired,
        crossSourceCheck_isExpired]
      exact ⟨fun _ => hc, fun _ => rfl⟩
    · rw [finalizeIssues_isValid]
      exact schemaCheck_isValid_false sch
        (crossSourceCheck_isValid_false uid reg rfl)
    · rw [finalizeIssues_of_ne_nil hne, ht4, ht3]
      apply List.mem_append_left
      apply List.mem_append_left
      rw [hr2def]
      exact List.mem_append_right _ (List.mem_singleton_self _)
  · have hexpEq : expirationCheck checks a now r1 = r1 := by
      unfold expirationCheck
      by_cases h0 : a.expirationTime = 0
      · rw [if_neg (fun hcond =>
          (by omega : ¬ a.expirationTime > 0) hcond.2)]
      · have hnlt : ¬ a.expirationTime < now := fun hlt => hc ⟨h0, hlt⟩
        rw [if_pos ⟨hche, Nat.pos_of_ne_zero h0⟩, if_neg hnlt]
    rw [hexpEq]
    have hfin : (finalizeIssues (schemaCheck sch
        (crossSourceCheck uid reg r1))).isExpired = false := by
      rw [finalizeIssues_isExpired, schemaCheck_isExpired,
        crossSourceCheck_isExpired, hexp1]
    refine ⟨?_, fun _ => hfin, fun hex => absurd (hfin ▸ hex) (by simp)⟩
    rw [hfin]
    exact iff_of_false (by simp) hc

/-- C9: when the registry lookup succeeds but returns no record (a null
result without throwing), the run is treated exactly like an identifier
mismatch: the fatal mismatch issue is appended and `isValid` is forced
false, and the non-fatal warning reserved for thrown lookups never
appears. -/
theorem C9_null_onchain_mismatch (uid : String) (checks : VerifyChecks)
    (a : Attestation) (rest : List Attestation)
    (sch : Except String (Option SchemaRecord)) (now : Nat)
    (r : VerificationResult) (calls : List ExtCall)
    (hrun : verifyAttestation uid checks
        { getAttestationsByUID := .ok (a :: rest),
          getAttestation := .ok none, getSchema := sch, nowSeconds := now } =
      .ok (r, calls)) :
    r.isValid = false ∧
    "Attestation data mismatch between on-chain and indexer" ∈ r.issues ∧
    "Warning: Could not verify on-chain data" ∉ r.issues := by
  have h2 : finalizeIssues (schemaCheck sch (crossSourceCheck uid (.ok none)
      (expirationCheck checks a now (revocationCheck checks a
        { initialResult uid with
          exists_ := true
          attestation := some a })))) = r :=
    congrArg Prod.fst (Except.ok.inj hrun)
  subst h2
  set r2 := expirationCheck checks a now (revocationCheck checks a
    { initialResult uid with
      exists_ := true
      attestation := some a }) with hr2def
  have hwarn2 : "Warning: Could not verify on-chain data" ∉ r2.issues := by
    rw [hr2def]
    exact warnfree_expirationCheck checks a now
      (warnfree_revocationCheck checks a (by simp [initialResult]))
  have hcross : crossSourceCheck uid (.ok none) r2 =
      { r2 with
        isValid := false
        issues := r2.issues ++
          ["Attestation data mismatch between on-chain and indexer"] } := rfl
  rw [hcross]
  set r3 := { r2 with
    isValid := false
    issues := r2.issues ++
      ["Attestation data mismatch between on-chain and indexer"] }
    with hr3def
  obtain ⟨t4, ht4, ht4mem⟩ := schemaCheck_issues_tail_mem sch r3
  have hr3iss : r3.issues = r2.issues ++
      ["Attestation data mismatch between on-chain and indexer"] := by
    rw [hr3def]
  have hne : (schemaCheck sch r3).issues ≠ [] := by
    rw [ht4, hr3iss]
    simp
  refine ⟨?_, ?_, ?_⟩
  · rw [finalizeIssues_isValid]
    exact schemaCheck_isValid_false sch (by rw [hr3def])
  · rw [finalizeIssues_of_ne_nil hne, ht4]
    apply List.mem_append_left
    rw [hr3iss]
    exact List.mem_append_right _ (List.mem_singleton_self _)
  · rw [finalizeIssues_of_ne_nil hne, ht4]
    intro hm
    rcases List.mem_append.mp hm with h1 | h1
    · rw [hr3iss] at h1
      rcases List.mem_append.mp h1 with h2 | h2
      · exact hwarn2 h2
      · exact absurd (List.mem_singleton.mp h2) (by decide)
    · rcases ht4mem _ h1 with h2 | h2 <;> exact absurd h2 (by decide)

/-- C4: in the cross-source consistency check, a thrown registry lookup
only appends the non-fatal warning and leaves `isValid` exactly as a run
whose lookup succeeds with a matching record would produce it, while a
successful lookup whose record's identifier differs from the requested
UID appends the fatal mismatch issue and forces `isValid=false`. -/
theorem C4_cross_source_policy (uid : String) (checks : VerifyChecks)
    (a : Attestation) (rest : List Attestation) (m : String)
    (sch : Except String (Option SchemaRecord)) (now : Nat)
    (oc : OnChainAttestation)
    (rE rM rO : VerificationResult) (cE cM cO : List ExtCall)
    (hrunE : verifyAttestation uid checks
        { getAttestationsByUID := .ok (a :: rest),
          getAttestation := .error m, getSchema := sch, nowSeconds := now } =
      .ok (rE, cE))
    (hrunM : verifyAttestation uid checks
        { getAttestationsByUID := .ok (a :: rest),
          getAttestation := .ok (some { uid := uid }),
          getSchema := sch, nowSeconds := now } = .ok (rM, cM))
    (hne : oc.uid ≠ uid)
    (hrunO : verifyAttestation uid checks
        { getAttestationsByUID := .ok (a :: rest),
          getAttestation := .ok (some oc), getSchema := sch,
          nowSeconds := now } = .ok (rO, cO)) :
    "Warning: Could not verify on-chain data" ∈ rE.issues ∧
    rE.isValid = rM.isValid ∧
    rO.isValid = false ∧
    "Attestation data mismatch between on-chain and indexer" ∈
      rO.issues := by
  have hE : finalizeIssues (schemaCheck sch (crossSourceCheck uid (.error m)
      (expirationCheck checks a now (revocationCheck checks a
        { initialResult uid with
          exists_ := true
          attestation := some a })))) = rE :=
    congrArg Prod.fst (Except.ok.inj hrunE)
  have hM : finalizeIssues (schemaCheck sch
      (crossSourceCheck uid (.ok (some { uid := uid }))
      (expirationCheck checks a now (revocationCheck checks a
        { initialResult uid with
          exists_ := true
          attestation := some a })))) = rM :=
    congrArg Prod.fst (Except.ok.inj hrunM)
  have hO : finalizeIssues (schemaCheck sch
      (crossSourceCheck uid (.ok (some oc))
      (expirationCheck checks a now (revocationCheck checks a
        { initialResult uid with
          exists_ := true
          attestation := some a })))) = rO :=
    congrArg Prod.fst (Except.ok.inj hrunO)
  subst hE
  subst hM
  subst hO
  set r2 := expirationCheck checks a now (revocationCheck checks a
    { initialResult uid with
      exists_ := true
      attestation := some a }) with hr2def
  have hcE : crossSourceCheck uid (.error m) r2 =
      { r2 with
        issues := r2.issues ++
          ["Warning: Could not verify on-chain data"] } := rfl
  have hcM : crossSourceCheck uid (.ok (some { uid := uid })) r2 = r2 := by
    simp only [crossSourceCheck]
    rw [if_neg (fun hx => hx rfl)]
  have hcO : crossSourceCheck uid (.ok (some oc)) r2 =
      { r2 with
        isValid := false
        issues := r2.issues ++
          ["Attestation data mismatch between on-chain and indexer"] } := by
    simp only [crossSourceCheck]
    rw [if_pos hne]
  rw [hcE, hcM, hcO]
  refine ⟨?_, ?_, ?_, ?_⟩
  · obtain ⟨t4, ht4⟩ := schemaCheck_issues_tail sch
      { r2 with
        issues := r2.issues ++ ["Warning: Could not verify on-chain data"] }
    have hne4 : (schemaCheck sch
        { r2 with
          issues := r2.issues ++
            ["Warning: Could not verify on-chain data"] }).issues ≠ [] := by
      rw [ht4]
      simp
    rw [finalizeIssues_of_ne_nil hne4, ht4]
    apply List.mem_append_left
    exact List.mem_append_right _ (List.mem_singleton_self _)
  · rw [finalizeIssues_isValid, finalizeIssues_isValid]
    exact schemaCheck_isValid_congr sch rfl
  · rw [finalizeIssues_isValid]
    exact schemaCheck_isValid_false sch rfl
  · obtain ⟨t4, ht4⟩ := schemaCheck_issues_tail sch
      { r2 with
        isValid := false
        issues := r2.issues ++
          ["Attestation data mismatch between on-chain and indexer"] }
    have hne4 : (schemaCheck sch
        { r2 with
          isValid := false
          issues := r2.issues ++
            ["Attestation data mismatch between on-chain and indexer"]
          }).issues ≠ [] := by
      rw [ht4]
      simp
    rw [finalizeIssues_of_ne_nil hne4, ht4]
    apply List.mem_append_left
    exact List.mem_append_right _ (List.mem_singleton_self _)

/-- C5 witness: the expiration characterization evaluated on an
attestation expiring at 100 verified at time 200. -/
theorem C5_expiration_exact_witness :
    ((true = true) ↔ ((100 : Nat) ≠ 0 ∧ (100 : Nat) < 200)) ∧
    ((100 : Nat) = 0 → (true = false)) ∧
    ((true = true) → (false = false) ∧
      ("Attestation expired on " ++ toISOStringStub 100000) ∈
        ["Attestation expired on " ++ toISOStringStub 100000]) :=
  C5_expiration_exact "0xe"
    { checkExpiration := true, checkRevocation := true }
    { uid := "0xe"
      schema := { id := "0xs", schema := "string name" }
      revocationTime := 0
      expirationTime := 100 } []
    (.ok (some { uid := "0xe" })) (.ok (some { schema := "string name" }))
    200 _ _ rfl rfl

/-- C9 witness: the null-record treatment evaluated on a concrete run
whose registry lookup returns no record. -/
theorem C9_null_onchain_mismatch_witness :
    (false = false) ∧
    "Attestation data mismatch between on-chain and indexer" ∈
      ["Attestation data mismatch between on-chain and indexer"] ∧
    "Warning: Could not verify on-chain data" ∉
      ["Attestation data mismatch between on-chain and indexer"] :=
  C9_null_onchain_mismatch "0xn"
    { checkExpiration := true, checkRevocation := true }
    { uid := "0xn"
      schema := { id := "0xs", schema := "string name" }
      revocationTime := 0
      expirationTime := 0 } []
    (.ok (some { schema := "string name" })) 9 _ _ rfl

/-- C4 witness: the cross-source policy evaluated on three concrete runs
(registry throwing, matching record, mismatching record). -/
theorem C4_cross_source_policy_witness :
    "Warning: Could not verify on-chain data" ∈
      ["Warning: Could not verify on-chain data"] ∧
    (true = true) ∧
    (false = false) ∧
    "Attestation data mismatch between on-chain and indexer" ∈
      ["Attestation data mismatch between on-chain and indexer"] :=
  C4_cross_source_policy "0xc"
    { checkExpiration := true, checkRevocation := true }
    { uid := "0xc"
      schema := { id := "0xs", schema := "string name" }
      revocationTime := 0
      expirationTime := 0 } [] "net"
    (.ok (some { schema := "string name" })) 9 { uid := "0xZ" }
    _ _ _ _ _ _ rfl rfl (by decide) rfl

/-- C6: the attestation query built from only a recipient and limit 10
renders exactly one equality filter and `first: 10` with no skip clause;
absent filters contribute no condition at all, the limit defaults to 100
for attestation queries and 50 for schema queries, and the skip clause is
omitted when the offset is zero or absent. -/
theorem C6_recipient_limit_render :
    attestationConditions
        { schema := none
          recipient := some "0xAAAAAAAAAAAAAAAAAAAAAAAAAAAAAAAAAAAAAAAA"
          attester := none
          limit := some 10
          offset := none } =
      ["recipient: \"0xAAAAAAAAAAAAAAAAAAAAAAAAAAAAAAAAAAAAAAAA\""] ∧
    attestationQueryArgs
        { schema := none
          recipient := some "0xAAAAAAAAAAAAAAAAAAAAAAAAAAAAAAAAAAAAAAAA"
          attester := none
          limit := some 10
          offset := none } =
      "where: \x7b recipient: \"0xAAAAAAAAAAAAAAAAAAAAAAAAAAAAAAAAAAAAAAAA\" \x7d, first: 10" ∧
    attestationOffsetClause
        { schema := none
          recipient := some "0xAAAAAAAAAAAAAAAAAAAAAAAAAAAAAAAAAAAAAAAA"
          attester := none
          limit := some 10
          offset := none } = "" ∧
    (∀ o : QueryOptions, o.limit = none →
      attestationLimitClause o = "first: 100") ∧
    (∀ o : SchemaQueryOptions, o.limit = none →
      schemaLimitClause o = "first: 50") ∧
    (∀ o : QueryOptions, o.offset = none ∨ o.offset = some 0 →
      attestationOffsetClause o = "") ∧
    (∀ o : QueryOptions, o.schema = none → o.recipient = none →
      o.attester = none → attestationConditions o = []) := by
  refine ⟨rfl, rfl, rfl, ?_, ?_, ?_, ?_⟩
  · intro o h
    rcases o with ⟨os, orc, oat, ol, oof⟩
    cases h
    rfl
  · intro o h
    rcases o with ⟨ocr, ol⟩
    cases h
    rfl
  · intro o h
    rcases o with ⟨os, orc, oat, ol, oof⟩
    rcases h with h | h <;> cases h <;> rfl
  · intro o h1 h2 h3
    rcases o with ⟨os, orc, oat, ol, oof⟩
    cases h1
    cases h2
    cases h3
    rfl

/-- C6 witness: the defaults and the offset omission evaluated at
concrete options. -/
theorem C6_recipient_limit_render_witness :
    attestationLimitClause
        { schema := none, recipient := none, attester := none, limit := none, offset := none } =
      "first: 100" ∧
    schemaLimitClause { creator := none, limit := none } = "first: 50" ∧
    attestationOffsetClause
        { schema := none, recipient := none, attester := none, limit := some 5, offset := some 0 } =
      "" :=
  ⟨C6_recipient_limit_render.2.2.2.1 _ rfl,
   C6_recipient_limit_render.2.2.2.2.1 _ rfl,
   C6_recipient_limit_render.2.2.2.2.2.1 _ (Or.inr rfl)⟩

/-- C10: a caller-supplied limit of 0 is falsy and treated as absent
(the rendered query says `first: 100`), and an offset of 0 produces no
skip clause; in both cases the rendered query is indistinguishable from
the one built without the field. -/
theorem C10_zero_limit_offset_falsy :
    (∀ o : QueryOptions, o.limit = some 0 →
      attestationLimitClause o = "first: 100") ∧
    (∀ o : QueryOptions, o.offset = some 0 →
      attestationOffsetClause o = "") ∧
    (∀ o : QueryOptions,
      buildGraphQLQuery { o with limit := some 0 } =
        buildGraphQLQuery { o with limit := none }) ∧
    (∀ o : QueryOptions,
      buildGraphQLQuery { o with offset := some 0 } =
        buildGraphQLQuery { o with offset := none }) := by
  refine ⟨?_, ?_, ?_, ?_⟩
  · intro o h
    rcases o with ⟨os, orc, oat, ol, oof⟩
    cases h
    rfl
  · intro o h
    rcases o with ⟨os, orc, oat, ol, oof⟩
    cases h
    rfl
  · intro o
    rcases o with ⟨os, orc, oat, ol, oof⟩
    rfl
  · intro o
    rcases o with ⟨os, orc, oat, ol, oof⟩
    rfl

/-- C10 witness: the zero-limit and zero-offset renderings evaluated at
concrete options. -/
theorem C10_zero_limit_offset_falsy_witness :
    attestationLimitClause
        { schema := none, recipient := none, attester := none, limit := some 0, offset := none } =
      "first: 100" ∧
    buildGraphQLQuery
        { schema := none, recipient := none, attester := none, limit := some 0, offset := some 0 } =
      buildGraphQLQuery
        { schema := none, recipient := none, attester := none, limit := none, offset := some 0 } :=
  ⟨C10_zero_limit_offset_falsy.1 _ rfl,
   C10_zero_limit_offset_falsy.2.2.1
     { schema := none, recipient := none, attester := none, limit := some 7, offset := some 0 }⟩

/-- C7: the schema codec's type inference returns "address" for strings
matching the address pattern, "bytes32" for other 0x-prefixed strings,
"string" for remaining strings, "uint256" for numbers and "bool" for
booleans, with the address test taking precedence over the 0x-prefix
test. -/
theorem C7_inferType_rules :
    (∀ s : String, isAddress s = true → inferType (.str s) = "address") ∧
    (∀ s : String, isAddress s = false →
      beginsWith "0x".data s.data = true → inferType (.str s) = "bytes32") ∧
    (∀ s : String, isAddress s = false →
      beginsWith "0x".data s.data = false → inferType (.str s) = "string") ∧
    (∀ n : Int, inferType (.num n) = "uint256") ∧
    (∀ b : Bool, inferType (.boolean b) = "bool") ∧
    inferType (.str "0xAAAAAAAAAAAAAAAAAAAAAAAAAAAAAAAAAAAAAAAA") =
      "address" := by
  refine ⟨?_, ?_, ?_, fun n => rfl, fun b => rfl, rfl⟩
  · intro s h
    simp [inferType, h]
  · intro s h1 h2
    simp [inferType, h1, h2]
  · intro s h1 h2
    simp [inferType, h1, h2]

/-- C7 witness: the inference rules evaluated on an address-shaped
string, a short 0x-prefixed string and a plain string. -/
theorem C7_inferType_rules_witness :
    inferType (.str "0xAAAAAAAAAAAAAAAAAAAAAAAAAAAAAAAAAAAAAAAA") =
      "address" ∧
    inferType (.str "0xdeadbeef") = "bytes32" ∧
    inferType (.str "hello") = "string" :=
  ⟨C7_inferType_rules.1 _ rfl,
   C7_inferType_rules.2.1 _ rfl rfl,
   C7_inferType_rules.2.2.1 _ rfl rfl⟩

theorem replaceScanFuel_id (pre cont : List Char → Option (List Char))
    (repl : List Char → List Char) :
    ∀ (fuel : Nat) (l : List Char), occursIn pre l = false →
      replaceScanFuel (headThen pre cont) repl fuel l = l := by
  intro fuel
  induction fuel with
  | zero =>
    intro l h
    cases l <;> rfl
  | succ n ih =>
    intro l h
    cases l with
    | nil => rfl
    | cons c rest =>
      rw [occursIn] at h
      obtain ⟨h1, h2⟩ := Bool.or_eq_false_iff.mp h
      have hnone : pre (c :: rest) = none := by
        cases hp : pre (c :: rest) with
        | none => rfl
        | some v =>
          rw [hp] at h1
          simp at h1
      have htry : headThen pre cont (c :: rest) = none := by
        rw [headThen, hnone]
        rfl
      have hstep : replaceScanFuel (headThen pre cont) repl (n + 1)
          (c :: rest) =
          c :: replaceScanFuel (headThen pre cont) repl n rest := by
        simp only [replaceScanFuel, htry]
      rw [hstep, ih rest h2]

/-- C8 counterexample: a message consisting of a bare 64-hex-character
string (a private-key pattern with no "private"/"key" markers and no 0x
prefix) passes through the logger's redaction unchanged: the displayed
output still contains the full 64-hex string, contrary to the claim that
any such string is redacted. -/
theorem C8_counterexample :
    redactSensitive
        "1234567890abcdef1234567890abcdef1234567890abcdef1234567890abcdef" =
      "1234567890abcdef1234567890abcdef1234567890abcdef1234567890abcdef" ∧
    containsSeq
        "1234567890abcdef1234567890abcdef1234567890abcdef1234567890abcdef".data
        (redactSensitive
          "1234567890abcdef1234567890abcdef1234567890abcdef1234567890abcdef").data =
      true ∧
    ("1234567890abcdef1234567890abcdef1234567890abcdef1234567890abcdef".data.length =
      64) ∧
    ("1234567890abcdef1234567890abcdef1234567890abcdef1234567890abcdef".data.all
      isHexDigit = true) :=
  ⟨rfl, by decide, by decide, by decide⟩

/-- C8 amended: the private-key redaction fires only when the 64-hex
pattern is preceded by "private" and then "key" in the message (as in the
source regex `/private.*key.*[a-fA-F0-9]{64}/gi`); a message containing
none of the trigger words "private"/"mnemonic" (case-insensitive) and no
"0x" is displayed unchanged — in particular a bare 64-hex string is not
redacted — while a marked private key is replaced by
PRIVATE_KEY_REDACTED and an address is shortened to its first 6 and last
4 characters. -/
theorem C8_amended_redaction (msg : String)
    (h1 : occursIn (matchLitCI "private".data) msg.data = false)
    (h2 : occursIn (matchLitCI "mnemonic".data) msg.data = false)
    (h3 : occursIn (matchLitCS "0x".data) msg.data = false) :
    redactSensitive msg = msg ∧
    redactSensitive
        "Private key: 0x1234567890abcdef1234567890abcdef1234567890abcdef1234567890abcdef" =
      "PRIVATE_KEY_REDACTED" ∧
    redactSensitive "User address: 0x742d35Cc6634C0532925a3b844Bc454e4438f44e" =
      "User address: 0x742d...f44e" := by
  refine ⟨?_, rfl, rfl⟩
  have e1 : replaceScan privateKeyMatch
      (fun _ => "PRIVATE_KEY_REDACTED".data) msg.data = msg.data :=
    replaceScanFuel_id _ _ _ _ _ h1
  have e2 : replaceScan mnemonicMatch
      (fun _ => "MNEMONIC_REDACTED".data) msg.data = msg.data :=
    replaceScanFuel_id _ _ _ _ _ h2
  have e3 : replaceScan addressMatch addressRepl msg.data = msg.data :=
    replaceScanFuel_id _ _ _ _ _ h3
  show String.mk (replaceScan addressMatch addressRepl
    (replaceScan mnemonicMatch (fun _ => "MNEMONIC_REDACTED".data)
      (replaceScan privateKeyMatch (fun _ => "PRIVATE_KEY_REDACTED".data)
        msg.data))) = msg
  rw [e1, e2, e3]

/-- C8 amended, witness: the identity case evaluated on the bare
64-hex-character message, together with the two concrete redactions. -/
theorem C8_amended_redaction_witness :
    redactSensitive
        "1234567890abcdef1234567890abcdef1234567890abcdef1234567890abcdef" =
      "1234567890abcdef1234567890abcdef1234567890abcdef1234567890abcdef" ∧
    redactSensitive
        "Private key: 0x1234567890abcdef1234567890abcdef1234567890abcdef1234567890abcdef" =
      "PRIVATE_KEY_REDACTED" ∧
    redactSensitive "User address: 0x742d35Cc6634C0532925a3b844Bc454e4438f44e" =
      "User address: 0x742d...f44e" :=
  C8_amended_redaction
    "1234567890abcdef1234567890abcdef1234567890abcdef1234567890abcdef"
    (by decide) (by decide) (by decide)

end RootstockAttest
